import Mathlib

/-
Verification of the tool-dispatch contract of the reddit-mcp server
(src/reddit_mcp/server.py): the static tool catalog (`list_tools`) and the
dispatcher (`call_tool`).  Python values that flow through the dispatcher are
embedded as the inductive `Value`; the Reddit client collaborator is a record
of four methods returning `Except String _` (an exception with its message,
or a result); the global `reddit_client : Optional[RedditClient]` becomes an
`Option RedditClient` parameter; the body of the `try:` block is `tryBody`,
and `call_tool` wraps it exactly as the `except Exception` handler does.
-/

namespace RedditMcp

/-- A Python value as seen by the dispatcher: `None`, a string, an integer,
a list, or a dict with string keys (post/subreddit records, argument values). -/
inductive Value where
  | none
  | str (s : String)
  | int (n : Int)
  | list (elems : List Value)
  | dict (fields : List (String × Value))

mutual

/-- Model of `json.dumps(v, indent=2, default=str)` used by the handlers to
serialize collaborator results; layout details (indentation, escaping) are
abstracted, the structure of the serialization is kept. -/
def jsonDumps : Value → String
  | .none => "null"
  | .str s => "\"" ++ s ++ "\""
  | .int n => toString n
  | .list elems => "[" ++ jsonDumpsElems elems ++ "]"
  | .dict fields => "\x7b" ++ jsonDumpsFields fields ++ "\x7d"

def jsonDumpsElems : List Value → String
  | [] => ""
  | [v] => jsonDumps v
  | v :: rest => jsonDumps v ++ ", " ++ jsonDumpsElems rest

def jsonDumpsFields : List (String × Value) → String
  | [] => ""
  | [(k, v)] => "\"" ++ k ++ "\": " ++ jsonDumps v
  | (k, v) :: rest => "\"" ++ k ++ "\": " ++ jsonDumps v ++ ", " ++ jsonDumpsFields rest

end

mutual

/-- Model of Python `str(v)`, used by the handlers when an f-string
interpolates an argument value such as `subreddit`: `str(None) = "None"`,
a string prints bare under `str` and quoted under `repr`, containers print
their elements under `repr`. -/
def pyStr : Value → String
  | .none => "None"
  | .str s => s
  | .int n => toString n
  | .list elems => "[" ++ pyReprElems elems ++ "]"
  | .dict fields => "\x7b" ++ pyReprFields fields ++ "\x7d"

def pyRepr : Value → String
  | .none => "None"
  | .str s => "'" ++ s ++ "'"
  | .int n => toString n
  | .list elems => "[" ++ pyReprElems elems ++ "]"
  | .dict fields => "\x7b" ++ pyReprFields fields ++ "\x7d"

def pyReprElems : List Value → String
  | [] => ""
  | [v] => pyRepr v
  | v :: rest => pyRepr v ++ ", " ++ pyReprElems rest

def pyReprFields : List (String × Value) → String
  | [] => ""
  | [(k, v)] => "'" ++ k ++ "': " ++ pyRepr v
  | (k, v) :: rest => "'" ++ k ++ "': " ++ pyRepr v ++ ", " ++ pyReprFields rest

end

/-- The `arguments` mapping: an association list of parameter name to value
(first binding wins, as in a Python dict's unique keys). -/
abbrev Args := List (String × Value)

/-- Python `m.get(k)`: the bound value, or `None` when the key is absent. -/
def dictGet (m : Args) (k : String) : Value :=
  match m.find? (fun p => p.1 == k) with
  | Option.some p => p.2
  | Option.none => Value.none

/-- Python `m.get(k, d)`: the bound value, or the default `d` when absent. -/
def dictGetD (m : Args) (k : String) (d : Value) : Value :=
  match m.find? (fun p => p.1 == k) with
  | Option.some p => p.2
  | Option.none => d

/-- The message of the `AttributeError` Python raises for `None.get(...)`,
which happens in every known-tool branch when `arguments` is `None`. -/
def attrErrorMsg : String := "'NoneType' object has no attribute 'get'"

/-- `arguments.get(k)` where `arguments : dict | None`: raises (as an
`Except.error` carrying the message) when the mapping itself is absent. -/
def argsGet (arguments : Option Args) (k : String) : Except String Value :=
  match arguments with
  | Option.none => Except.error attrErrorMsg
  | Option.some m => Except.ok (dictGet m k)

/-- `arguments.get(k, d)` where `arguments : dict | None`. -/
def argsGetD (arguments : Option Args) (k : String) (d : Value) : Except String Value :=
  match arguments with
  | Option.none => Except.error attrErrorMsg
  | Option.some m => Except.ok (dictGetD m k d)

/-- The collaborator (`RedditClient`), given by its four methods the
dispatcher calls.  Each method either returns a result or raises a fault
carrying a message (`Except.error msg` models `raise` with `str(e) = msg`). -/
structure RedditClient where
  search_posts : Value → Value → Value → Value → Value → Except String (List Value)
  get_post_details : Value → Except String Value
  get_subreddit_info : Value → Except String Value
  get_hot_posts : Value → Value → Except String (List Value)

/-- `TextContent(type=..., text=...)` from `mcp.types`. -/
structure TextContent where
  type : String
  text : String
deriving DecidableEq

/-- `CallToolResult(content=[...])` from `mcp.types`. -/
structure CallToolResult where
  content : List TextContent
deriving DecidableEq

/-- A property of a tool's JSON input schema (`type`, `description`, and the
optional `default`, `enum`, `minimum`, `maximum` keys). -/
structure PropertySchema where
  type : String
  description : String
  default : Option Value := Option.none
  enum : Option (List String) := Option.none
  minimum : Option Int := Option.none
  maximum : Option Int := Option.none

/-- A tool's `inputSchema`: a JSON-schema object with `properties` and a
`required` array. -/
structure InputSchema where
  type : String
  properties : List (String × PropertySchema)
  required : List String

/-- `Tool(name=..., description=..., inputSchema=...)` from `mcp.types`. -/
structure Tool where
  name : String
  description : String
  inputSchema : InputSchema

/-- `ListToolsResult(tools=...)` from `mcp.types`. -/
structure ListToolsResult where
  tools : List Tool

/-- The catalog handler `list_tools` (server.py lines 27-120): the fixed list
of the four tool descriptors. -/
def list_tools : ListToolsResult :=
  ListToolsResult.mk [
    Tool.mk "search_reddit_posts"
      "Search for posts in a specific subreddit"
      (InputSchema.mk "object"
        [("subreddit", PropertySchema.mk "string"
            "The name of the subreddit to search in (without r/)"
            Option.none Option.none Option.none Option.none),
         ("query", PropertySchema.mk "string" "The search query"
            Option.none Option.none Option.none Option.none),
         ("limit", PropertySchema.mk "integer"
            "Number of posts to return (default: 10, max: 100)"
            (Option.some (Value.int 10)) Option.none
            (Option.some 1) (Option.some 100)),
         ("sort", PropertySchema.mk "string"
            "Sort method for search results"
            (Option.some (Value.str "relevance"))
            (Option.some ["relevance", "hot", "top", "new", "comments"])
            Option.none Option.none),
         ("time_filter", PropertySchema.mk "string"
            "Time filter for search results"
            (Option.some (Value.str "all"))
            (Option.some ["all", "day", "week", "month", "year"])
            Option.none Option.none)]
        ["subreddit", "query"]),
    Tool.mk "get_reddit_post_details"
      "Get detailed information about a specific Reddit post"
      (InputSchema.mk "object"
        [("post_id", PropertySchema.mk "string" "The Reddit post ID"
            Option.none Option.none Option.none Option.none)]
        ["post_id"]),
    Tool.mk "get_subreddit_info"
      "Get information about a subreddit"
      (InputSchema.mk "object"
        [("subreddit", PropertySchema.mk "string"
            "The name of the subreddit (without r/)"
            Option.none Option.none Option.none Option.none)]
        ["subreddit"]),
    Tool.mk "get_hot_reddit_posts"
      "Get hot posts from a subreddit"
      (InputSchema.mk "object"
        [("subreddit", PropertySchema.mk "string"
            "The name of the subreddit (without r/)"
            Option.none Option.none Option.none Option.none),
         ("limit", PropertySchema.mk "integer"
            "Number of posts to return (default: 10, max: 100)"
            (Option.some (Value.int 10)) Option.none
            (Option.some 1) (Option.some 100))]
        ["subreddit"])]

/-- The fixed text returned when the global client is unset
(server.py lines 128-136). -/
def notInitText : String :=
  "Error: Reddit client not initialized. Please check your configuration and ensure REDDIT_CLIENT_ID, REDDIT_CLIENT_SECRET, and REDDIT_USER_AGENT are set."

/-- The body of the `try:` block of `call_tool` (server.py lines 138-220):
the name dispatch, argument reads with defaults, collaborator invocation and
success formatting.  An uncaught Python exception is the `Except.error` case:
raised either by an argument read on an absent mapping, or by the
collaborator itself. -/
def tryBody (reddit_client : RedditClient) (name : String)
    (arguments : Option Args) : Except String CallToolResult :=
  if name = "search_reddit_posts" then do
    let subreddit ← argsGet arguments "subreddit"
    let query ← argsGet arguments "query"
    let limit ← argsGetD arguments "limit" (Value.int 10)
    let sort ← argsGetD arguments "sort" (Value.str "relevance")
    let time_filter ← argsGetD arguments "time_filter" (Value.str "all")
    let posts ← reddit_client.search_posts subreddit query limit sort time_filter
    Except.ok (CallToolResult.mk [TextContent.mk "text"
      ("Found " ++ toString posts.length ++ " posts in r/" ++ pyStr subreddit ++
       " for query: '" ++ pyStr query ++ "'\n\n" ++ jsonDumps (Value.list posts))])
  else if name = "get_reddit_post_details" then do
    let post_id ← argsGet arguments "post_id"
    let post_details ← reddit_client.get_post_details post_id
    Except.ok (CallToolResult.mk [TextContent.mk "text"
      ("Post details for " ++ pyStr post_id ++ ":\n\n" ++ jsonDumps post_details)])
  else if name = "get_subreddit_info" then do
    let subreddit ← argsGet arguments "subreddit"
    let subreddit_info ← reddit_client.get_subreddit_info subreddit
    Except.ok (CallToolResult.mk [TextContent.mk "text"
      ("Subreddit information for r/" ++ pyStr subreddit ++ ":\n\n" ++
       jsonDumps subreddit_info)])
  else if name = "get_hot_reddit_posts" then do
    let subreddit ← argsGet arguments "subreddit"
    let limit ← argsGetD arguments "limit" (Value.int 10)
    let posts ← reddit_client.get_hot_posts subreddit limit
    Except.ok (CallToolResult.mk [TextContent.mk "text"
      ("Hot posts from r/" ++ pyStr subreddit ++ ":\n\n" ++
       jsonDumps (Value.list posts))])
  else
    Except.ok (CallToolResult.mk [TextContent.mk "text" ("Unknown tool: " ++ name)])

/-- The dispatcher `call_tool` (server.py lines 124-231): the not-initialized
precondition check, then the `try:` body, with any exception caught and
rendered as the uniform `"Error: {message}"` text block. -/
def call_tool (reddit_client : Option RedditClient) (name : String)
    (arguments : Option Args) : CallToolResult :=
  match reddit_client with
  | Option.none => CallToolResult.mk [TextContent.mk "text" notInitText]
  | Option.some client =>
    match tryBody client name arguments with
    | Except.ok result => result
    | Except.error e =>
      CallToolResult.mk [TextContent.mk "text" ("Error: " ++ e)]

/-- A collaborator all four methods of which raise a fault with message
"boom", for exercising the dispatcher's exception handler. -/
def errClient : RedditClient :=
  RedditClient.mk
    (fun _ _ _ _ _ => Except.error "boom")
    (fun _ => Except.error "boom")
    (fun _ => Except.error "boom")
    (fun _ _ => Except.error "boom")

/-- A collaborator whose search returns one post and whose detail/info
methods echo their argument, for exercising the success paths. -/
def searchOkClient : RedditClient :=
  RedditClient.mk
    (fun _ _ _ _ _ => Except.ok [Value.str "p1"])
    (fun v => Except.ok v)
    (fun v => Except.ok v)
    (fun _ _ => Except.ok [])

/-- A collaborator whose detail/info methods echo their argument and whose
list methods return empty lists, all without faulting. -/
def echoClient : RedditClient :=
  RedditClient.mk
    (fun _ _ _ _ _ => Except.ok [])
    (fun v => Except.ok v)
    (fun v => Except.ok v)
    (fun _ _ => Except.ok [])

theorem ok_bind {α β : Type} (a : α) (f : α → Except String β) :
    (Except.ok a >>= f) = f a := rfl

theorem error_bind {α β : Type} (e : String) (f : α → Except String β) :
    ((Except.error e : Except String α) >>= f) = Except.error e := rfl

/-- C1: for every known tool name and every argument mapping, if the
collaborator raises a fault (here: a collaborator all of whose methods raise
with message `msg`), the dispatcher catches it and returns a `CallToolResult`
with the single text block `"Error: " ++ msg`; since `call_tool` is a total
function into `CallToolResult`, no fault propagates past it. -/
theorem collaborator_faults_caught (rc : RedditClient) (msg : String)
    (hs : ∀ a b c d e, rc.search_posts a b c d e = Except.error msg)
    (hp : ∀ a, rc.get_post_details a = Except.error msg)
    (hi : ∀ a, rc.get_subreddit_info a = Except.error msg)
    (hh : ∀ a b, rc.get_hot_posts a b = Except.error msg)
    (name : String) (args : Args)
    (hknown : name = "search_reddit_posts" ∨ name = "get_reddit_post_details" ∨
              name = "get_subreddit_info" ∨ name = "get_hot_reddit_posts") :
    call_tool (Option.some rc) name (Option.some args) =
      CallToolResult.mk [TextContent.mk "text" ("Error: " ++ msg)] := by
  rcases hknown with h | h | h | h <;> subst h <;>
    simp [call_tool, tryBody, argsGet, argsGetD, ok_bind, error_bind, hs, hp, hi, hh]

/-- C1 witness: a collaborator raising "boom" on `get_post_details("abc123")`
yields exactly the text block "Error: boom". -/
theorem collaborator_faults_caught_witness :
    call_tool (Option.some errClient) "get_reddit_post_details"
        (Option.some [("post_id", Value.str "abc123")]) =
      CallToolResult.mk [TextContent.mk "text" "Error: boom"] :=
  collaborator_faults_caught errClient "boom"
    (fun _ _ _ _ _ => rfl) (fun _ => rfl) (fun _ => rfl) (fun _ _ => rfl)
    "get_reddit_post_details" [("post_id", Value.str "abc123")]
    (Or.inr (Or.inl rfl))

/-- C2: when the collaborator handle is unset, every call, for every name and
every argument mapping (present or absent), returns the fixed not-initialized
text block; no collaborator exists to be invoked on this path. -/
theorem uninit_fixed_response (name : String) (arguments : Option Args) :
    call_tool Option.none name arguments =
      CallToolResult.mk [TextContent.mk "text" notInitText] := rfl

/-- C3 counterexample: with the collaborator handle unset, a call with an
unknown name does not return "Unknown tool: {name}" (it returns the fixed
not-initialized text instead), so the claim's unconditional "always" fails. -/
theorem unknown_needs_client_cex :
    call_tool Option.none "nonexistent_tool" (Option.some []) ≠
      CallToolResult.mk [TextContent.mk "text" "Unknown tool: nonexistent_tool"] := by
  decide

/-- C3 amended: when the collaborator handle is set, every name outside the
four known tools returns a single text block "Unknown tool: {name}", for any
argument mapping (present or absent), as a normal outcome. -/
theorem unknown_tool_when_initialized (rc : RedditClient) (name : String)
    (arguments : Option Args)
    (h : name ∉ ["search_reddit_posts", "get_reddit_post_details",
                 "get_subreddit_info", "get_hot_reddit_posts"]) :
    call_tool (Option.some rc) name arguments =
      CallToolResult.mk [TextContent.mk "text" ("Unknown tool: " ++ name)] := by
  simp only [List.mem_cons, List.not_mem_nil, or_false, not_or] at h
  obtain ⟨h1, h2, h3, h4⟩ := h
  simp [call_tool, tryBody, h1, h2, h3, h4]

/-- C3 amended witness: "definitely_not_a_tool" is not a known tool, and with
an initialized collaborator the call returns "Unknown tool: definitely_not_a_tool". -/
theorem unknown_tool_when_initialized_witness :
    ("definitely_not_a_tool" ∉ ["search_reddit_posts", "get_reddit_post_details",
        "get_subreddit_info", "get_hot_reddit_posts"]) ∧
    call_tool (Option.some errClient) "definitely_not_a_tool" Option.none =
      CallToolResult.mk [TextContent.mk "text" "Unknown tool: definitely_not_a_tool"] :=
  ⟨by decide, unknown_tool_when_initialized errClient "definitely_not_a_tool"
      Option.none (by decide)⟩

/-- C4: the catalog (a pure constant in this embedding, so identical on every
call) lists exactly the four tools in order, each name appearing exactly once,
and their schemas' `required` arrays are [subreddit, query], [post_id],
[subreddit] and [subreddit]. -/
theorem catalog_four_descriptors :
    list_tools.tools.map Tool.name =
      ["search_reddit_posts", "get_reddit_post_details", "get_subreddit_info",
       "get_hot_reddit_posts"] ∧
    (list_tools.tools.map Tool.name).count "search_reddit_posts" = 1 ∧
    (list_tools.tools.map Tool.name).count "get_reddit_post_details" = 1 ∧
    (list_tools.tools.map Tool.name).count "get_subreddit_info" = 1 ∧
    (list_tools.tools.map Tool.name).count "get_hot_reddit_posts" = 1 ∧
    list_tools.tools.map (fun t => t.inputSchema.required) =
      [["subreddit", "query"], ["post_id"], ["subreddit"], ["subreddit"]] := by
  refine ⟨rfl, ?_, ?_, ?_, ?_, rfl⟩ <;> decide

/-- C5: absent optional parameters take their declared defaults:
`get_hot_reddit_posts` with only a subreddit forwards limit 10 to the
collaborator, and `search_reddit_posts` with subreddit, query, sort and
time_filter but no limit forwards limit 10 together with the given sort and
time_filter; the result is the collaborator outcome wrapped as usual. -/
theorem defaults_forwarded (rc : RedditClient) :
    (call_tool (Option.some rc) "get_hot_reddit_posts"
        (Option.some [("subreddit", Value.str "python")]) =
      match rc.get_hot_posts (Value.str "python") (Value.int 10) with
      | Except.ok posts =>
        CallToolResult.mk [TextContent.mk "text"
          ("Hot posts from r/python:\n\n" ++ jsonDumps (Value.list posts))]
      | Except.error e =>
        CallToolResult.mk [TextContent.mk "text" ("Error: " ++ e)]) ∧
    (call_tool (Option.some rc) "search_reddit_posts"
        (Option.some [("subreddit", Value.str "test"), ("query", Value.str "foo"),
                      ("sort", Value.str "new"), ("time_filter", Value.str "week")]) =
      match rc.search_posts (Value.str "test") (Value.str "foo") (Value.int 10)
          (Value.str "new") (Value.str "week") with
      | Except.ok posts =>
        CallToolResult.mk [TextContent.mk "text"
          ("Found " ++ toString posts.length ++
           " posts in r/test for query: 'foo'\n\n" ++ jsonDumps (Value.list posts))]
      | Except.error e =>
        CallToolResult.mk [TextContent.mk "text" ("Error: " ++ e)]) := by
  constructor
  · cases hm : rc.get_hot_posts (Value.str "python") (Value.int 10) <;>
      simp [call_tool, tryBody, argsGet, argsGetD, dictGet, dictGetD, ok_bind,
            error_bind, hm, pyStr, ← String.append_assoc]
  · cases hm : rc.search_posts (Value.str "test") (Value.str "foo") (Value.int 10)
        (Value.str "new") (Value.str "week") with
    | error e =>
      simp [call_tool, tryBody, argsGet, argsGetD, dictGet, dictGetD, ok_bind,
            error_bind, hm]
    | ok posts =>
      simp [call_tool, tryBody, argsGet, argsGetD, dictGet, dictGetD, ok_bind,
            error_bind, hm, pyStr, ← String.append_assoc]
      congr 1
      simp [String.append_assoc]

/-- C6: every successful `search_reddit_posts` call (collaborator initialized
and its search returning a post list without fault) yields a single text
block: a header with the post count and the echoed subreddit and query,
then the serialized post list. -/
theorem search_success_format (rc : RedditClient) (args : Args) (posts : List Value)
    (h : rc.search_posts (dictGet args "subreddit") (dictGet args "query")
        (dictGetD args "limit" (Value.int 10)) (dictGetD args "sort" (Value.str "relevance"))
        (dictGetD args "time_filter" (Value.str "all")) = Except.ok posts) :
    call_tool (Option.some rc) "search_reddit_posts" (Option.some args) =
      CallToolResult.mk [TextContent.mk "text"
        ("Found " ++ toString posts.length ++ " posts in r/" ++
         pyStr (dictGet args "subreddit") ++ " for query: '" ++
         pyStr (dictGet args "query") ++ "'\n\n" ++ jsonDumps (Value.list posts))] := by
  simp [call_tool, tryBody, argsGet, argsGetD, ok_bind, error_bind, h]

/-- C6 witness: a search returning the one-post list ["p1"] on subreddit
"test" and query "foo" produces exactly the formatted header and body. -/
theorem search_success_format_witness :
    call_tool (Option.some searchOkClient) "search_reddit_posts"
        (Option.some [("subreddit", Value.str "test"), ("query", Value.str "foo")]) =
      CallToolResult.mk [TextContent.mk "text"
        "Found 1 posts in r/test for query: 'foo'\n\n[\"p1\"]"] :=
  search_success_format searchOkClient
    [("subreddit", Value.str "test"), ("query", Value.str "foo")]
    [Value.str "p1"] rfl

/-- C7 counterexample: with the arguments mapping absent and a non-faulting
collaborator, a known tool does not forward a null argument to the
collaborator: the attribute lookup on the absent mapping itself faults, the
dispatcher catches it, and the result is the "Error: ..." text (not the
collaborator's wrapped success output). -/
theorem absent_arguments_cex :
    (call_tool (Option.some echoClient) "get_subreddit_info" Option.none =
      CallToolResult.mk [TextContent.mk "text" ("Error: " ++ attrErrorMsg)]) ∧
    call_tool (Option.some echoClient) "get_subreddit_info" Option.none ≠
      CallToolResult.mk [TextContent.mk "text"
        "Subreddit information for r/None:\n\nnull"] := by
  constructor
  · rfl
  · decide

/-- C7 amended: with a present (possibly empty) arguments mapping, every one
of the four known tools reads each of its arguments from the mapping (null
for a missing required argument, the declared default for a missing optional)
and passes the values straight through to its collaborator method without any
schema-level rejection; with the mapping absent entirely, every known tool
faults on the argument read before any collaborator method runs, and the
dispatcher surfaces that fault as the uniform "Error: ..." text block. -/
theorem lenient_args (rc : RedditClient) (args : Args) :
    (call_tool (Option.some rc) "search_reddit_posts" (Option.some args) =
      match rc.search_posts (dictGet args "subreddit") (dictGet args "query")
          (dictGetD args "limit" (Value.int 10))
          (dictGetD args "sort" (Value.str "relevance"))
          (dictGetD args "time_filter" (Value.str "all")) with
      | Except.ok posts =>
        CallToolResult.mk [TextContent.mk "text"
          ("Found " ++ toString posts.length ++ " posts in r/" ++
           pyStr (dictGet args "subreddit") ++ " for query: '" ++
           pyStr (dictGet args "query") ++ "'\n\n" ++ jsonDumps (Value.list posts))]
      | Except.error e =>
        CallToolResult.mk [TextContent.mk "text" ("Error: " ++ e)]) ∧
    (call_tool (Option.some rc) "get_reddit_post_details" (Option.some args) =
      match rc.get_post_details (dictGet args "post_id") with
      | Except.ok d =>
        CallToolResult.mk [TextContent.mk "text"
          ("Post details for " ++ pyStr (dictGet args "post_id") ++ ":\n\n" ++
           jsonDumps d)]
      | Except.error e =>
        CallToolResult.mk [TextContent.mk "text" ("Error: " ++ e)]) ∧
    (call_tool (Option.some rc) "get_subreddit_info" (Option.some args) =
      match rc.get_subreddit_info (dictGet args "subreddit") with
      | Except.ok i =>
        CallToolResult.mk [TextContent.mk "text"
          ("Subreddit information for r/" ++ pyStr (dictGet args "subreddit") ++
           ":\n\n" ++ jsonDumps i)]
      | Except.error e =>
        CallToolResult.mk [TextContent.mk "text" ("Error: " ++ e)]) ∧
    (call_tool (Option.some rc) "get_hot_reddit_posts" (Option.some args) =
      match rc.get_hot_posts (dictGet args "subreddit")
          (dictGetD args "limit" (Value.int 10)) with
      | Except.ok posts =>
        CallToolResult.mk [TextContent.mk "text"
          ("Hot posts from r/" ++ pyStr (dictGet args "subreddit") ++ ":\n\n" ++
           jsonDumps (Value.list posts))]
      | Except.error e =>
        CallToolResult.mk [TextContent.mk "text" ("Error: " ++ e)]) ∧
    (∀ knownName,
      knownName ∈ ["search_reddit_posts", "get_reddit_post_details",
                   "get_subreddit_info", "get_hot_reddit_posts"] →
      call_tool (Option.some rc) knownName Option.none =
        CallToolResult.mk [TextContent.mk "text" ("Error: " ++ attrErrorMsg)]) := by
  refine ⟨?_, ?_, ?_, ?_, ?_⟩
  · cases hm : rc.search_posts (dictGet args "subreddit") (dictGet args "query")
        (dictGetD args "limit" (Value.int 10))
        (dictGetD args "sort" (Value.str "relevance"))
        (dictGetD args "time_filter" (Value.str "all")) <;>
      simp [call_tool, tryBody, argsGet, argsGetD, ok_bind, error_bind, hm]
  · cases hm : rc.get_post_details (dictGet args "post_id") <;>
      simp [call_tool, tryBody, argsGet, argsGetD, ok_bind, error_bind, hm]
  · cases hm : rc.get_subreddit_info (dictGet args "subreddit") <;>
      simp [call_tool, tryBody, argsGet, argsGetD, ok_bind, error_bind, hm]
  · cases hm : rc.get_hot_posts (dictGet args "subreddit")
        (dictGetD args "limit" (Value.int 10)) <;>
      simp [call_tool, tryBody, argsGet, argsGetD, ok_bind, error_bind, hm]
  · intro knownName hk
    fin_cases hk <;>
      simp [call_tool, tryBody, argsGet, argsGetD, ok_bind, error_bind]

/-- C8 counterexample: `get_subreddit_info` called with an empty arguments
mapping (its required `subreddit` absent) is not rejected with a
validation-style error: the collaborator is invoked with the null value (here
a collaborator echoing its argument) and its result is wrapped as a normal
success, echoing "None" in the header and the serialized null body. -/
theorem no_validation_cex :
    call_tool (Option.some echoClient) "get_subreddit_info" (Option.some []) =
      CallToolResult.mk [TextContent.mk "text"
        "Subreddit information for r/None:\n\nnull"] := rfl

/-- C8 amended: the dispatcher performs no required-parameter validation: for
every one of the four known tools and every present arguments mapping, the
call proceeds to that tool's collaborator method with whatever the reads
yield (null for each missing required parameter, declared defaults for
optionals) and returns the collaborator's wrapped outcome; no rejection
branch exists. -/
theorem no_required_validation (rc : RedditClient) (args : Args) :
    (call_tool (Option.some rc) "search_reddit_posts" (Option.some args) =
      match rc.search_posts (dictGet args "subreddit") (dictGet args "query")
          (dictGetD args "limit" (Value.int 10))
          (dictGetD args "sort" (Value.str "relevance"))
          (dictGetD args "time_filter" (Value.str "all")) with
      | Except.ok posts =>
        CallToolResult.mk [TextContent.mk "text"
          ("Found " ++ toString posts.length ++ " posts in r/" ++
           pyStr (dictGet args "subreddit") ++ " for query: '" ++
           pyStr (dictGet args "query") ++ "'\n\n" ++ jsonDumps (Value.list posts))]
      | Except.error e =>
        CallToolResult.mk [TextContent.mk "text" ("Error: " ++ e)]) ∧
    (call_tool (Option.some rc) "get_reddit_post_details" (Option.some args) =
      match rc.get_post_details (dictGet args "post_id") with
      | Except.ok d =>
        CallToolResult.mk [TextContent.mk "text"
          ("Post details for " ++ pyStr (dictGet args "post_id") ++ ":\n\n" ++
           jsonDumps d)]
      | Except.error e =>
        CallToolResult.mk [TextContent.mk "text" ("Error: " ++ e)]) ∧
    (call_tool (Option.some rc) "get_subreddit_info" (Option.some args) =
      match rc.get_subreddit_info (dictGet args "subreddit") with
      | Except.ok i =>
        CallToolResult.mk [TextContent.mk "text"
          ("Subreddit information for r/" ++ pyStr (dictGet args "subreddit") ++
           ":\n\n" ++ jsonDumps i)]
      | Except.error e =>
        CallToolResult.mk [TextContent.mk "text" ("Error: " ++ e)]) ∧
    (call_tool (Option.some rc) "get_hot_reddit_posts" (Option.some args) =
      match rc.get_hot_posts (dictGet args "subreddit")
          (dictGetD args "limit" (Value.int 10)) with
      | Except.ok posts =>
        CallToolResult.mk [TextContent.mk "text"
          ("Hot posts from r/" ++ pyStr (dictGet args "subreddit") ++ ":\n\n" ++
           jsonDumps (Value.list posts))]
      | Except.error e =>
        CallToolResult.mk [TextContent.mk "text" ("Error: " ++ e)]) := by
  refine ⟨?_, ?_, ?_, ?_⟩
  · cases hm : rc.search_posts (dictGet args "subreddit") (dictGet args "query")
        (dictGetD args "limit" (Value.int 10))
        (dictGetD args "sort" (Value.str "relevance"))
        (dictGetD args "time_filter" (Value.str "all")) <;>
      simp [call_tool, tryBody, argsGet, argsGetD, ok_bind, error_bind, hm]
  · cases hm : rc.get_post_details (dictGet args "post_id") <;>
      simp [call_tool, tryBody, argsGet, argsGetD, ok_bind, error_bind, hm]
  · cases hm : rc.get_subreddit_info (dictGet args "subreddit") <;>
      simp [call_tool, tryBody, argsGet, argsGetD, ok_bind, error_bind, hm]
  · cases hm : rc.get_hot_posts (dictGet args "subreddit")
        (dictGetD args "limit" (Value.int 10)) <;>
      simp [call_tool, tryBody, argsGet, argsGetD, ok_bind, error_bind, hm]

/-- C9: every invocation, for every collaborator state, tool name, argument
mapping and collaborator outcome, returns a `CallToolResult` whose content is
exactly one block of type "text": the dispatcher's single response shape. -/
theorem single_text_block (client : Option RedditClient) (name : String)
    (arguments : Option Args) :
    ∃ s, call_tool client name arguments =
      CallToolResult.mk [TextContent.mk "text" s] := by
  cases client with
  | none => exact ⟨notInitText, rfl⟩
  | some rc =>
    by_cases h1 : name = "search_reddit_posts"
    · subst h1
      cases arguments with
      | none =>
        exact ⟨"Error: " ++ attrErrorMsg,
          by simp [call_tool, tryBody, argsGet, argsGetD, error_bind]⟩
      | some m =>
        cases hm : rc.search_posts (dictGet m "subreddit") (dictGet m "query")
            (dictGetD m "limit" (Value.int 10))
            (dictGetD m "sort" (Value.str "relevance"))
            (dictGetD m "time_filter" (Value.str "all")) with
        | ok posts =>
          exact ⟨"Found " ++ toString posts.length ++ " posts in r/" ++
              pyStr (dictGet m "subreddit") ++ " for query: '" ++
              pyStr (dictGet m "query") ++ "'\n\n" ++ jsonDumps (Value.list posts),
            by simp [call_tool, tryBody, argsGet, argsGetD, ok_bind, error_bind, hm]⟩
        | error e =>
          exact ⟨"Error: " ++ e,
            by simp [call_tool, tryBody, argsGet, argsGetD, ok_bind, error_bind, hm]⟩
    · by_cases h2 : name = "get_reddit_post_details"
      · subst h2
        cases arguments with
        | none =>
          exact ⟨"Error: " ++ attrErrorMsg,
            by simp [call_tool, tryBody, argsGet, argsGetD, error_bind, h1]⟩
        | some m =>
          cases hm : rc.get_post_details (dictGet m "post_id") with
          | ok d =>
            exact ⟨"Post details for " ++ pyStr (dictGet m "post_id") ++ ":\n\n" ++
                jsonDumps d,
              by simp [call_tool, tryBody, argsGet, argsGetD, ok_bind, error_bind,
                       h1, hm]⟩
          | error e =>
            exact ⟨"Error: " ++ e,
              by simp [call_tool, tryBody, argsGet, argsGetD, ok_bind, error_bind,
                       h1, hm]⟩
      · by_cases h3 : name = "get_subreddit_info"
        · subst h3
          cases arguments with
          | none =>
            exact ⟨"Error: " ++ attrErrorMsg,
              by simp [call_tool, tryBody, argsGet, argsGetD, error_bind, h1, h2]⟩
          | some m =>
            cases hm : rc.get_subreddit_info (dictGet m "subreddit") with
            | ok i =>
              exact ⟨"Subreddit information for r/" ++ pyStr (dictGet m "subreddit") ++
                  ":\n\n" ++ jsonDumps i,
                by simp [call_tool, tryBody, argsGet, argsGetD, ok_bind, error_bind,
                         h1, h2, hm]⟩
            | error e =>
              exact ⟨"Error: " ++ e,
                by simp [call_tool, tryBody, argsGet, argsGetD, ok_bind, error_bind,
                         h1, h2, hm]⟩
        · by_cases h4 : name = "get_hot_reddit_posts"
          · subst h4
            cases arguments with
            | none =>
              exact ⟨"Error: " ++ attrErrorMsg,
                by simp [call_tool, tryBody, argsGet, argsGetD, error_bind, h1, h2, h3]⟩
            | some m =>
              cases hm : rc.get_hot_posts (dictGet m "subreddit")
                  (dictGetD m "limit" (Value.int 10)) with
              | ok posts =>
                exact ⟨"Hot posts from r/" ++ pyStr (dictGet m "subreddit") ++
                    ":\n\n" ++ jsonDumps (Value.list posts),
                  by simp [call_tool, tryBody, argsGet, argsGetD, ok_bind, error_bind,
                           h1, h2, h3, hm]⟩
              | error e =>
                exact ⟨"Error: " ++ e,
                  by simp [call_tool, tryBody, argsGet, argsGetD, ok_bind, error_bind,
                           h1, h2, h3, hm]⟩
          · exact ⟨"Unknown tool: " ++ name,
              by simp [call_tool, tryBody, h1, h2, h3, h4]⟩

/-- C10: an explicit `limit` outside the advertised range [1, 100] is
forwarded to the collaborator unchanged, with no clamping at the dispatcher:
`get_hot_reddit_posts` with limit 1000 forwards 1000, `search_reddit_posts`
with limit 0 forwards 0. -/
theorem limit_not_clamped (rc : RedditClient) :
    (call_tool (Option.some rc) "get_hot_reddit_posts"
        (Option.some [("subreddit", Value.str "python"), ("limit", Value.int 1000)]) =
      match rc.get_hot_posts (Value.str "python") (Value.int 1000) with
      | Except.ok posts =>
        CallToolResult.mk [TextContent.mk "text"
          ("Hot posts from r/python:\n\n" ++ jsonDumps (Value.list posts))]
      | Except.error e =>
        CallToolResult.mk [TextContent.mk "text" ("Error: " ++ e)]) ∧
    (call_tool (Option.some rc) "search_reddit_posts"
        (Option.some [("subreddit", Value.str "test"), ("query", Value.str "foo"),
                      ("limit", Value.int 0)]) =
      match rc.search_posts (Value.str "test") (Value.str "foo") (Value.int 0)
          (Value.str "relevance") (Value.str "all") with
      | Except.ok posts =>
        CallToolResult.mk [TextContent.mk "text"
          ("Found " ++ toString posts.length ++
           " posts in r/test for query: 'foo'\n\n" ++ jsonDumps (Value.list posts))]
      | Except.error e =>
        CallToolResult.mk [TextContent.mk "text" ("Error: " ++ e)]) := by
  constructor
  · cases hm : rc.get_hot_posts (Value.str "python") (Value.int 1000) <;>
      simp [call_tool, tryBody, argsGet, argsGetD, dictGet, dictGetD, ok_bind,
            error_bind, hm, pyStr, ← String.append_assoc]
  · cases hm : rc.search_posts (Value.str "test") (Value.str "foo") (Value.int 0)
        (Value.str "relevance") (Value.str "all") with
    | error e =>
      simp [call_tool, tryBody, argsGet, argsGetD, dictGet, dictGetD, ok_bind,
            error_bind, hm]
    | ok posts =>
      simp [call_tool, tryBody, argsGet, argsGetD, dictGet, dictGetD, ok_bind,
            error_bind, hm, pyStr, ← String.append_assoc]
      congr 1
      simp [String.append_assoc]

end RedditMcp
